import Mathlib

/-!
Verification development for the Pingr-ml-insights pipeline.

The repository consists of a Python batch script (src/unnamed/part_001) that
reads a JSONL alert log, cleans it with pandas and exports
pingr_cleaned_data.csv, and several near-duplicate browser dashboards
(src/docs/app.js, src/unnamed/part_000) that re-import that CSV, re-normalize
the fields and compute top-10 per-symbol rankings and column statistics.

Numbers are modelled as exact rationals (`Rat`).  IEEE-754 artefacts
(rounding, overflow to infinity) are outside the model; the NaN produced by
`pd.to_numeric(errors="coerce")`, by `parseFloat` on non-numeric text and by
the JavaScript division `0/0` is modelled explicitly with `Option`
(`none` = NaN/missing), because the claims under verification are about
exactly that missing-value policy.
-/

namespace Pingr

/-- Raw JSON scalar values as they appear in one line of the alert log. -/
inductive JVal where
  | num (q : Rat)
  | str (s : String)
  | bool (b : Bool)
  | null
deriving DecidableEq, Repr

/-- One raw record produced by `json.loads` on a log line.  The recognized
fields of the input schema; `none` means the key is absent from the JSON
object.  Additional pass-through keys are not modelled: no claim under
verification mentions them. -/
structure RawRecord where
  timestamp : Option JVal := none
  symbol : Option JVal := none
  signal_score : Option JVal := none
  rsi_15m : Option JVal := none
  heat_index : Option JVal := none
  alert_sent : Option JVal := none
deriving DecidableEq, Repr

/-- One physical line of the log file, carrying the outcome of `json.loads`:
either a successfully parsed record or a line that raises a parse error. -/
inductive LogLine where
  | valid (r : RawRecord)
  | malformed
deriving DecidableEq, Repr

/-- Line classifier used to count the syntactically valid lines of a log. -/
def isValidLine : LogLine → Bool
  | .valid _ => true
  | .malformed => false

/-- Embedding of `load_jsonl` (part_001 lines 10-18): each line is parsed
independently, parse failures are dropped by the bare `except: pass`, and
successfully parsed records are appended in file order. -/
def load_jsonl : List LogLine → List RawRecord
  | [] => []
  | .valid r :: rest => r :: load_jsonl rest
  | .malformed :: rest => load_jsonl rest

/-- Numeric value of a decimal digit character, `none` on anything else. -/
def digitVal (c : Char) : Option Nat :=
  if c.isDigit then some (c.toNat - 48) else none

/-- Longest prefix of decimal digits of a character list, with the rest. -/
def readDigits : List Char → List Nat × List Char
  | [] => ([], [])
  | c :: rest =>
    match digitVal c with
    | some d =>
      let p := readDigits rest
      (d :: p.1, p.2)
    | none => ([], c :: rest)

/-- Value of a big-endian list of decimal digits. -/
def natOfDigits (ds : List Nat) : Nat := ds.foldl (fun a d => 10 * a + d) 0

/-- Reads an optional exponent part `e`/`E`, optional sign, digits.  Returns
`none` (exponent absent or malformed) or the exponent and the rest. -/
def readExponent : List Char → Option (Int × List Char)
  | c :: rest =>
    if c = 'e' ∨ c = 'E' then
      match rest with
      | '+' :: r2 =>
        match readDigits r2 with
        | ([], _) => none
        | (ds, r3) => some ((natOfDigits ds : Int), r3)
      | '-' :: r2 =>
        match readDigits r2 with
        | ([], _) => none
        | (ds, r3) => some (-(natOfDigits ds : Int), r3)
      | _ =>
        match readDigits rest with
        | ([], _) => none
        | (ds, r3) => some ((natOfDigits ds : Int), r3)
    else none
  | [] => none

/-- Reads an unsigned decimal mantissa: `digits`, `digits.digits`, `digits.`
or `.digits`.  Returns its rational value and the remaining characters. -/
def readMantissa (cs : List Char) : Option (Rat × List Char) :=
  match readDigits cs with
  | ([], rest) =>
    match rest with
    | '.' :: r2 =>
      match readDigits r2 with
      | ([], _) => none
      | (fs, r3) => some ((natOfDigits fs : Rat) / (10 : Rat) ^ fs.length, r3)
    | _ => none
  | (ds, rest) =>
    match rest with
    | '.' :: r2 =>
      match readDigits r2 with
      | (fs, r3) => some ((natOfDigits ds : Rat) + (natOfDigits fs : Rat) / (10 : Rat) ^ fs.length, r3)
    | _ => some ((natOfDigits ds : Rat), rest)

/-- Reads a signed decimal number with optional exponent from the front of a
character list, returning its value and the unconsumed rest; `none` when no
number starts the list.  A malformed exponent is left unconsumed, as in
JavaScript `parseFloat` prefix semantics. -/
def readNumber (cs : List Char) : Option (Rat × List Char) :=
  let signed : Rat × List Char :=
    match cs with
    | '-' :: r => (-1, r)
    | '+' :: r => (1, r)
    | _ => (1, cs)
  match readMantissa signed.2 with
  | none => none
  | some (m, rest) =>
    match readExponent rest with
    | some (e, rest2) => some (signed.1 * m * (10 : Rat) ^ e, rest2)
    | none => some (signed.1 * m, rest)

/-- Drops leading and trailing whitespace of a character list. -/
def stripSpaces (cs : List Char) : List Char :=
  ((cs.dropWhile Char.isWhitespace).reverse.dropWhile Char.isWhitespace).reverse

/-- Python `float(s)` on a string, as used by `pd.to_numeric` on string cells:
surrounding whitespace is ignored and the whole remainder must be a decimal
literal.  Non-finite literals (`inf`, `nan`) lie outside the rational model
and are mapped to `none`; downstream they behave like the missing case. -/
def pyFloat (s : String) : Option Rat :=
  match readNumber (stripSpaces s.data) with
  | some (q, []) => some q
  | _ => none

/-- Elementwise semantics of `pd.to_numeric(col, errors="coerce")`
(part_001 lines 45-47): numbers pass through, numeric strings are parsed,
booleans coerce to 1/0, and null, absent or unparseable values become NaN,
modelled as `none`. -/
def pyNum : Option JVal → Option Rat
  | some (.num q) => some q
  | some (.str s) => pyFloat s
  | some (.bool b) => some (if b then 1 else 0)
  | some .null => none
  | none => none

/-- Elementwise semantics of the pandas filter `df["alert_sent"] == True`
(part_001 line 56): a boolean compares as itself, the number 1 compares equal
to `True` under numpy, and strings, null and NaN compare unequal. -/
def pyEqTrue : Option JVal → Bool
  | some (.bool b) => b
  | some (.num q) => q == 1
  | _ => false

/-- One row of the cleaned pandas frame after part_001 lines 44-47.
`symbol` and `alert_sent` pass through unmodified (object dtype); the three
numeric columns hold a float or NaN (`none`).  The parsed timestamp value is
not modelled: no downstream code under verification reads it, only the
existence of the raw column matters (see `pyMain`). -/
structure CleanRow where
  symbol : Option JVal
  signal_score : Option Rat
  rsi_15m : Option Rat
  heat_index : Option Rat
  alert_sent : Option JVal
deriving DecidableEq, Repr

/-- Per-record semantics of the columnwise cleaning, part_001 lines 44-47. -/
def pyCleanRecord (r : RawRecord) : CleanRow :=
  { symbol := r.symbol
    signal_score := pyNum r.signal_score
    rsi_15m := pyNum r.rsi_15m
    heat_index := pyNum r.heat_index
    alert_sent := r.alert_sent }

/-- Whether a DataFrame built from these records has the given column: pandas
takes the union of the keys of the record dicts. -/
def hasCol (rs : List RawRecord) (f : RawRecord → Option JVal) : Bool :=
  rs.any fun r => (f r).isSome

/-- One cell of the exported CSV artifact, abstracting the text written by
`df.to_csv`: an empty field (NaN/None), the decimal rendering of a float, the
token `True`/`False` for a boolean, or a passed-through string.  The model
identifies a written cell with the field text read back by the dashboards
`split(",")` row parser; fields containing CSV metacharacters are outside the
model. -/
inductive Cell where
  | empty
  | numS (q : Rat)
  | boolS (b : Bool)
  | rawS (s : String)
deriving DecidableEq, Repr

/-- CSV rendering of a float column cell: NaN becomes an empty field. -/
def exportNum : Option Rat → Cell
  | none => .empty
  | some q => .numS q

/-- CSV rendering of an object column cell: None and JSON null become empty
fields, booleans the tokens `True`/`False`, strings their own text. -/
def exportJVal : Option JVal → Cell
  | none => .empty
  | some .null => .empty
  | some (.bool b) => .boolS b
  | some (.str s) => .rawS s
  | some (.num q) => .numS q

/-- One data row of the exported CSV, in the canonical columns the dashboards
read back. -/
structure Row where
  symbol : Cell
  signal_score : Cell
  rsi_15m : Cell
  heat_index : Cell
  alert_sent : Cell
deriving DecidableEq, Repr

/-- Rendering of one cleaned record as one CSV data row (`df.to_csv`,
part_001 line 77): one row per record, no rows dropped. -/
def exportRow (c : CleanRow) : Row :=
  { symbol := exportJVal c.symbol
    signal_score := exportNum c.signal_score
    rsi_15m := exportNum c.rsi_15m
    heat_index := exportNum c.heat_index
    alert_sent := exportJVal c.alert_sent }

/-- Outcome of one run of the Python script `main` (part_001 lines 20-80). -/
inductive RunOutcome where
  | fileMissing
  | emptyLog
  | keyError (col : String)
  | completed (rows : List Row)
deriving DecidableEq, Repr

/-- Control flow of `main` (part_001): a missing log file is fatal (line 27);
an empty or fully malformed log returns early with a warning (line 34);
`df["timestamp"]` on line 44 and `df["alert_sent"]` on line 56 use bracket
access, which raises `KeyError` when no record in the log carries that key
(the three numeric columns use the None-safe `df.get` and always exist after
their assignments); otherwise the cleaned frame is exported to CSV. -/
def pyMain (fileExists : Bool) (lines : List LogLine) : RunOutcome :=
  if fileExists then
    let raw := load_jsonl lines
    if raw.isEmpty then .emptyLog
    else if hasCol raw (·.timestamp) = false then .keyError "timestamp"
    else if hasCol raw (·.alert_sent) = false then .keyError "alert_sent"
    else .completed ((raw.map pyCleanRecord).map exportRow)
  else .fileMissing

/-- JavaScript string equality `cell === lit` between the text of a CSV cell
and a string literal.  The dashboards only ever compare against the literals
`"True"`, `"TRUE"` and `"true"`; a decimal numeral never equals any of them,
so the `numS` case is constantly false. -/
def cellIs : Cell → String → Bool
  | .empty, t => "" == t
  | .numS _, _ => false
  | .boolS b, t => (if b then "True" else "False") == t
  | .rawS s, t => s == t

/-- Alert normalization of app.js line 50 and part_000 line 46:
`d.alert_sent === "True" || d.alert_sent === "true"`. -/
def normAlert1 (c : Cell) : Bool := cellIs c "True" || cellIs c "true"

/-- Alert normalization of app.js line 188:
`d.alert_sent === "True" || d.alert_sent === "TRUE" || d.alert_sent === "true"`. -/
def normAlert2 (c : Cell) : Bool := cellIs c "True" || cellIs c "TRUE" || cellIs c "true"

/-- JavaScript `parseFloat` on the text of a CSV cell: NaN (`none`) on an
empty field and on the tokens `True`/`False`, the number itself on a decimal
numeral cell (the decimal rendering re-parses to the same value), and
longest-numeric-prefix parsing after skipping leading whitespace on any other
text.  The non-finite result of the literal `Infinity` is outside the
rational model. -/
def jsParseFloat : Cell → Option Rat
  | .empty => none
  | .numS q => some q
  | .boolS _ => none
  | .rawS s => (readNumber (s.data.dropWhile Char.isWhitespace)).map (·.1)

/-- JavaScript `x || 0` applied to a number: NaN and 0 are falsy and give the
right operand 0, anything else gives x itself (app.js line 51). -/
def jsOrZero : Option Rat → Rat
  | none => 0
  | some q => if q = 0 then 0 else q

/-- JavaScript `x || null` applied to a number: NaN and 0 are falsy and give
null, anything else gives x itself (app.js lines 52-53). -/
def jsOrNull : Option Rat → Option Rat
  | none => none
  | some q => if q = 0 then none else some q

/-- One dashboard record after the in-place type conversion of app.js
lines 49-54 (first variant): `alert_sent` is a boolean, `signal_score` a
number (NaN collapsed to 0), `rsi_15m`/`heat_index` a nonzero number or null. -/
structure NRec where
  symbol : Cell
  alert_sent : Bool
  signal_score : Rat
  rsi_15m : Option Rat
  heat_index : Option Rat
deriving DecidableEq, Repr

/-- The conversion itself, app.js lines 49-54. -/
def normRow (r : Row) : NRec :=
  { symbol := r.symbol
    alert_sent := normAlert1 r.alert_sent
    signal_score := jsOrZero (jsParseFloat r.signal_score)
    rsi_15m := jsOrNull (jsParseFloat r.rsi_15m)
    heat_index := jsOrNull (jsParseFloat r.heat_index) }

/-- The alert-positive subset `data.filter(d => d.alert_sent)` of the
converted dataset (app.js line 56). -/
def alertsOf (rows : List Row) : List NRec :=
  (rows.map normRow).filter (·.alert_sent)

/-- One step of the grouping loop of app.js lines 62-66: push the score on
the symbol's list, creating the group at the end on first sight, matching the
insertion order of JavaScript object keys. -/
def addScore : List (Cell × List Rat) → Cell → Rat → List (Cell × List Rat)
  | [], sym, sc => [(sym, [sc])]
  | (s, xs) :: rest, sym, sc =>
    if s = sym then (s, xs ++ [sc]) :: rest
    else (s, xs) :: addScore rest sym sc

/-- The grouped score lists `scores` of app.js lines 62-66. -/
def groupScores (alerts : List NRec) : List (Cell × List Rat) :=
  alerts.foldl (fun acc a => addScore acc a.symbol a.signal_score) []

/-- The group mean `arr.reduce((a, b) => a + b, 0) / arr.length` of app.js
line 71.  Groups built by `groupScores` are nonempty, so the JavaScript
division is by a nonzero length; the `Rat` division is total and agrees. -/
def jsMeanNum (xs : List Rat) : Rat := xs.foldl (· + ·) 0 / (xs.length : Rat)

/-- The ranked top list of app.js lines 68-74: map each group to its symbol
and mean score, sort descending by mean (the comparator `b.avg - a.avg`),
truncate to the first 10. -/
def rankedOf (rows : List Row) : List (Cell × Rat) :=
  (((groupScores (alertsOf rows)).map fun g => (g.1, jsMeanNum g.2)).mergeSort
      (fun a b => decide (b.2 ≤ a.2))).take 10

/-- JavaScript division of a number by a length, exposing `0/0 = NaN` as
`none`: in the uses below the numerator is the `reduce((a,b) => a+b, 0)` of
the same list, so a zero length means a `0/0` division. -/
def jsDiv (a : Rat) (n : Nat) : Option Rat :=
  if n = 0 then none else some (a / (n : Rat))

/-- The non-null RSI values over the alert subset, app.js line 103:
`alerts.map(a => a.rsi_15m).filter(v => v !== null)`. -/
def rsiVals (rows : List Row) : List Rat :=
  ((alertsOf rows).map (·.rsi_15m)).filterMap id

/-- The RSI average of app.js line 104:
`rsiVals.reduce((a, b) => a + b, 0) / rsiVals.length`, NaN as `none`. -/
def rsiAvg (rows : List Row) : Option Rat :=
  jsDiv ((rsiVals rows).foldl (· + ·) 0) (rsiVals rows).length

/-- The non-null heat-index values over the whole dataset, app.js line 117:
`data.map(d => d.heat_index).filter(v => v !== null)`. -/
def heatVals (rows : List Row) : List Rat :=
  ((rows.map normRow).map (·.heat_index)).filterMap id

/-- The heat-index average of app.js line 118, NaN as `none`. -/
def heatAvg (rows : List Row) : Option Rat :=
  jsDiv ((heatVals rows).foldl (· + ·) 0) (heatVals rows).length

/-- Composite per-record normalization of the `signal_score` field as the
dashboard finally sees it: pandas cleaning, CSV export, `parseFloat(..) || 0`
re-import. -/
def compositeScore (v : Option JVal) : Rat :=
  jsOrZero (jsParseFloat (exportNum (pyNum v)))

/-- Export of one cleaned record followed by re-import and re-normalization
by the dashboard (the round trip of the tabular artifact). -/
def roundTrip (c : CleanRow) : NRec := normRow (exportRow c)

/-- A raw record with every recognized field absent, as parsed from the log
line consisting of the JSON text of an empty object. -/
def emptyRawRecord : RawRecord := {}

/-- A CSV data row with an alert sent but an empty `rsi_15m` field. -/
def c5Row : Row :=
  { symbol := Cell.rawS "BTC"
    signal_score := Cell.numS 5
    rsi_15m := Cell.empty
    heat_index := Cell.empty
    alert_sent := Cell.rawS "True" }

/-- A raw log record whose `signal_score` is unparseable text and whose
`alert_sent` is the string `"True"` rather than a JSON boolean. -/
def c8Raw : RawRecord :=
  { symbol := some (JVal.str "BTC")
    signal_score := some (JVal.str "abc")
    alert_sent := some (JVal.str "True") }

/-- A well-formed raw log record: string symbol, numeric score, boolean
alert flag. -/
def c8Good : RawRecord :=
  { symbol := some (JVal.str "ETH")
    signal_score := some (JVal.num 4)
    alert_sent := some (JVal.bool true) }

/-- A CSV data row whose `rsi_15m` and `heat_index` fields hold genuine zero
readings. -/
def c10Row : Row :=
  { symbol := Cell.rawS "BTC"
    signal_score := Cell.numS 2
    rsi_15m := Cell.numS 0
    heat_index := Cell.numS 0
    alert_sent := Cell.rawS "True" }

/-! Helper lemmas. -/

theorem foldl_add_eq_sum (xs : List Rat) : ∀ a : Rat, xs.foldl (· + ·) a = a + xs.sum := by
  induction xs with
  | nil => intro a; simp
  | cons x rest ih => intro a; simp [ih, add_assoc]

theorem addScore_total (acc : List (Cell × List Rat)) (s : Cell) (x : Rat) :
    ((addScore acc s x).map fun g => g.2.sum).sum
      = ((acc.map fun g => g.2.sum).sum) + x := by
  induction acc with
  | nil => simp [addScore]
  | cons g rest ih =>
    obtain ⟨gs, gxs⟩ := g
    by_cases hs : gs = s
    · simp [addScore, hs]; ring
    · simp [addScore, hs, ih]; ring

theorem foldl_addScore_total (alerts : List NRec) :
    ∀ acc : List (Cell × List Rat),
      (((alerts.foldl (fun acc a => addScore acc a.symbol a.signal_score) acc).map
          fun g => g.2.sum).sum)
        = ((acc.map fun g => g.2.sum).sum) + (alerts.map (·.signal_score)).sum := by
  induction alerts with
  | nil => intro acc; simp
  | cons a rest ih =>
    intro acc
    simp only [List.foldl_cons, List.map_cons, List.sum_cons]
    rw [ih, addScore_total]; ring

theorem groupScores_total (alerts : List NRec) :
    ((groupScores alerts).map fun g => g.2.sum).sum
      = (alerts.map (·.signal_score)).sum := by
  simpa [groupScores] using foldl_addScore_total alerts []

theorem addScore_ne_nil (acc : List (Cell × List Rat)) (s : Cell) (x : Rat)
    (h : ∀ g ∈ acc, g.2 ≠ []) : ∀ g ∈ addScore acc s x, g.2 ≠ [] := by
  induction acc with
  | nil => intro g hg; simp [addScore] at hg; simp [hg]
  | cons p rest ih =>
    obtain ⟨ps, pxs⟩ := p
    intro g hg
    by_cases hs : ps = s
    · simp [addScore, hs] at hg
      rcases hg with hg | hg
      · simp [hg]
      · exact h g (by simp [hg])
    · simp [addScore, hs] at hg
      rcases hg with hg | hg
      · subst hg; exact h (ps, pxs) (by simp)
      · exact ih (fun g hg => h g (by simp [hg])) g hg

theorem foldl_addScore_ne_nil (alerts : List NRec) :
    ∀ acc : List (Cell × List Rat), (∀ g ∈ acc, g.2 ≠ []) →
      ∀ g ∈ alerts.foldl (fun acc a => addScore acc a.symbol a.signal_score) acc, g.2 ≠ [] := by
  induction alerts with
  | nil => intro acc h; simpa using h
  | cons a rest ih =>
    intro acc h
    simp only [List.foldl_cons]
    exact ih _ (addScore_ne_nil acc a.symbol a.signal_score h)

theorem groupScores_ne_nil (alerts : List NRec) :
    ∀ g ∈ groupScores alerts, g.2 ≠ [] :=
  foldl_addScore_ne_nil alerts [] (by simp)

theorem jsMeanNum_mul_length {xs : List Rat} (h : xs ≠ []) :
    jsMeanNum xs * (xs.length : Rat) = xs.sum := by
  have hlen : (xs.length : Rat) ≠ 0 := by
    have : 0 < xs.length := List.length_pos.mpr h
    exact_mod_cast Nat.pos_iff_ne_zero.mp this ∘ (by exact_mod_cast ·)
  rw [jsMeanNum, foldl_add_eq_sum, zero_add]
  exact div_mul_cancel₀ _ hlen

/-! Claim theorems. -/

/-- C4: for every input log, `load_jsonl` yields exactly one raw record per
syntactically valid JSON line — malformed lines, wherever interleaved, are
dropped without failing the pipeline. -/
theorem C4_logReader_yields_exactly_valid_count (lines : List LogLine) :
    (load_jsonl lines).length = lines.countP isValidLine := by
  induction lines with
  | nil => rfl
  | cons l rest ih =>
    cases l <;> simp [load_jsonl, List.countP_cons, isValidLine, ih]

/-- C9: a log file that exists but contains zero valid lines is non-fatal:
`load_jsonl` yields the empty sequence and the run stops in the explicit
empty-log state (the early return of part_001 line 34), never reaching any
downstream statistics, so no division by zero can occur. -/
theorem C9_empty_log_is_explicit_state (lines : List LogLine)
    (h : ∀ l ∈ lines, l = LogLine.malformed) :
    load_jsonl lines = [] ∧ pyMain true lines = RunOutcome.emptyLog := by
  have hl : load_jsonl lines = [] := by
    induction lines with
    | nil => rfl
    | cons l rest ih =>
      have hm := h l (by simp)
      subst hm
      exact ih fun x hx => h x (by simp [hx])
  exact ⟨hl, by simp [pyMain, hl]⟩

/-- Witness for C9 at the concrete one-line fully malformed log. -/
theorem C9_empty_log_is_explicit_state_witness :
    load_jsonl [LogLine.malformed] = []
      ∧ pyMain true [LogLine.malformed] = RunOutcome.emptyLog :=
  C9_empty_log_is_explicit_state [LogLine.malformed] (by intro l hl; simpa using hl)

/-- C3 (code bug evidence): on the log consisting of the single valid line
with every recognized field absent, the cleaning stage raises `KeyError`
(bracket access `df["timestamp"]`, part_001 line 44, on a column that does
not exist), so normalization is not total on raw records. -/
theorem C3_all_fields_absent_raises_keyerror :
    pyMain true [LogLine.valid emptyRawRecord] = RunOutcome.keyError "timestamp" := by
  decide

/-- C1 (counterexample): under the conversion of app.js line 50 (and
part_000 line 46) the raw CSV value `"TRUE"` normalizes to `false`, refuting
the claimed equivalence with membership in the three-element set
containing the strings True, true and TRUE. -/
theorem C1_counterexample :
    ¬ (normAlert1 (Cell.rawS "TRUE") = true
        ↔ ("TRUE" = "True" ∨ "TRUE" = "true" ∨ "TRUE" = "TRUE")) := by
  decide

/-- C1 (amended): the claimed case-sensitive three-element membership holds
exactly for the variant of app.js line 188; the variants of app.js line 50
and part_000 line 46 test membership in the two-element set containing True
and true only, so TRUE normalizes to false there; in either variant the
result is a boolean — false on the empty field left by a missing value,
never null. -/
theorem C1_alert_membership (s : String) :
    (normAlert2 (Cell.rawS s) = true ↔ (s = "True" ∨ s = "true" ∨ s = "TRUE"))
    ∧ (normAlert1 (Cell.rawS s) = true ↔ (s = "True" ∨ s = "true"))
    ∧ normAlert1 Cell.empty = false ∧ normAlert2 Cell.empty = false := by
  refine ⟨?_, ?_, by decide, by decide⟩
  · constructor
    · intro h
      simp only [normAlert2, cellIs, Bool.or_eq_true, beq_iff_eq] at h
      tauto
    · intro h
      simp only [normAlert2, cellIs, Bool.or_eq_true, beq_iff_eq]
      tauto
  · constructor
    · intro h
      simp only [normAlert1, cellIs, Bool.or_eq_true, beq_iff_eq] at h
      tauto
    · intro h
      simp only [normAlert1, cellIs, Bool.or_eq_true, beq_iff_eq]
      tauto

/-- C2: the composite normalization of `signal_score` — pandas cleaning, CSV
export, dashboard `parseFloat(..) || 0` — yields the parsed value whenever
the raw value parses as a number, and exactly 0 (never null) when it is
absent, null or unparseable. -/
theorem C2_score_parse_or_zero (v : Option JVal) :
    (∀ q : Rat, pyNum v = some q → compositeScore v = q)
    ∧ (pyNum v = none → compositeScore v = 0) := by
  constructor
  · intro q h
    simp only [compositeScore, h, exportNum, jsParseFloat, jsOrZero]
    rcases eq_or_ne q 0 with h0 | h0 <;> simp [h0]
  · intro h
    simp [compositeScore, h, exportNum, jsParseFloat, jsOrZero]

/-- Witness for C2: a numeric raw score passes through to 4, and the raw
score absent from the record normalizes to 0. -/
theorem C2_score_parse_or_zero_witness :
    compositeScore (some (JVal.num 4)) = 4 ∧ compositeScore none = 0 :=
  ⟨(C2_score_parse_or_zero (some (JVal.num 4))).1 4 rfl,
    (C2_score_parse_or_zero none).2 rfl⟩

/-- C5 (code bug evidence): on a dataset whose alert subset is nonempty but
whose non-null RSI set is empty, the dashboard mean of app.js line 104 is the
division `0/0`, i.e. NaN — not an explicit not-applicable result. -/
theorem C5_empty_rsi_set_gives_nan :
    rsiVals [c5Row] = [] ∧ alertsOf [c5Row] ≠ [] ∧ rsiAvg [c5Row] = none := by
  refine ⟨?_, ?_, ?_⟩ <;> decide

/-- C6: for every dataset, the ranked output of app.js lines 68-74 has at
most 10 entries, is sorted non-increasing by mean score, and is the empty
sequence — an explicit state, not an error — whenever the alert-positive
subset is empty. -/
theorem C6_ranking_shape (rows : List Row) :
    (rankedOf rows).length ≤ 10
    ∧ List.Pairwise (fun a b => b.2 ≤ a.2) (rankedOf rows)
    ∧ (alertsOf rows = [] → rankedOf rows = []) := by
  refine ⟨?_, ?_, ?_⟩
  · simp only [rankedOf]
    exact le_trans (le_of_eq (List.length_take 10 _)) (min_le_left 10 _)
  · have htrans : ∀ a b c : Cell × Rat,
        decide (b.2 ≤ a.2) = true → decide (c.2 ≤ b.2) = true →
          decide (c.2 ≤ a.2) = true := by
      intro a b c h1 h2
      simp only [decide_eq_true_eq] at h1 h2 ⊢
      exact le_trans h2 h1
    have htotal : ∀ a b : Cell × Rat,
        (decide (b.2 ≤ a.2) || decide (a.2 ≤ b.2)) = true := by
      intro a b
      simpa using le_total b.2 a.2
    have hp := List.sorted_mergeSort htrans htotal
      ((groupScores (alertsOf rows)).map fun g => (g.1, jsMeanNum g.2))
    have hs := List.Pairwise.sublist (List.take_sublist 10 _) hp
    exact hs.imp fun h => by simpa using h
  · intro h
    simp [rankedOf, h, groupScores]

/-- Witness for C6 at the empty dataset, whose alert subset is empty. -/
theorem C6_ranking_shape_witness :
    rankedOf [] = [] ∧ (rankedOf []).length ≤ 10 :=
  ⟨(C6_ranking_shape []).2.2 rfl, (C6_ranking_shape []).1⟩

/-- C7: grouping and averaging conserves score mass — over all groups of the
alert subset (before the top-10 truncation), the sum of mean score times
sample count equals the sum of the signal scores of the alert subset, exactly
in rational arithmetic. -/
theorem C7_mean_times_count_conserves_sum (rows : List Row) :
    ((groupScores (alertsOf rows)).map
        fun g => jsMeanNum g.2 * (g.2.length : Rat)).sum
      = ((alertsOf rows).map (·.signal_score)).sum := by
  rw [← groupScores_total]
  exact congrArg List.sum
    (List.map_congr_left fun g hg =>
      jsMeanNum_mul_length (groupScores_ne_nil (alertsOf rows) g hg))

/-- C8 (counterexample): for the cleaned record of the raw log line with
symbol BTC, unparseable score text and the string value True in alert_sent,
the export/re-import round trip does not reproduce the record: the missing
(NaN) score re-imports as 0, and alert_sent re-imports as true although the
pipeline's own filter semantics valued it false. -/
theorem C8_counterexample :
    ¬ ((roundTrip (pyCleanRecord c8Raw)).symbol = Cell.rawS "BTC"
        ∧ (roundTrip (pyCleanRecord c8Raw)).alert_sent
            = pyEqTrue (pyCleanRecord c8Raw).alert_sent
        ∧ (pyCleanRecord c8Raw).signal_score
            = some ((roundTrip (pyCleanRecord c8Raw)).signal_score)) := by
  decide

/-- C8 (amended): the round trip reproduces a cleaned record whenever its
raw symbol is a string, its raw alert_sent is absent or a JSON boolean, and
its score is non-missing: the symbol text, the boolean value of the alert
flag (as the pipeline's own filter computes it) and the exact score value all
survive export and re-normalization.  A missing (NaN) score instead
re-imports as 0, and a string alert_sent re-imports by the dashboard's
string test rather than by the filter's value. -/
theorem C8_round_trip_amended (r : RawRecord) (s : String) (q : Rat)
    (hsym : r.symbol = some (JVal.str s))
    (halert : r.alert_sent = none ∨ ∃ b : Bool, r.alert_sent = some (JVal.bool b))
    (hscore : pyNum r.signal_score = some q) :
    (roundTrip (pyCleanRecord r)).symbol = Cell.rawS s
    ∧ (roundTrip (pyCleanRecord r)).alert_sent = pyEqTrue (pyCleanRecord r).alert_sent
    ∧ (roundTrip (pyCleanRecord r)).signal_score = q
    ∧ (pyCleanRecord r).signal_score = some ((roundTrip (pyCleanRecord r)).signal_score) := by
  have hsc : (roundTrip (pyCleanRecord r)).signal_score = q := by
    simp only [roundTrip, normRow, exportRow, pyCleanRecord, hscore, exportNum,
      jsParseFloat, jsOrZero]
    rcases eq_or_ne q 0 with h0 | h0 <;> simp [h0]
  refine ⟨?_, ?_, hsc, ?_⟩
  · simp [roundTrip, normRow, exportRow, pyCleanRecord, hsym, exportJVal]
  · rcases halert with h | ⟨b, h⟩
    · simp [roundTrip, normRow, exportRow, pyCleanRecord, h, exportJVal,
        normAlert1, cellIs, pyEqTrue]
    · cases b <;>
        simp [roundTrip, normRow, exportRow, pyCleanRecord, h, exportJVal,
          normAlert1, cellIs, pyEqTrue]
  · rw [hsc]
    simp [pyCleanRecord, hscore]

/-- Witness for the amended C8 at a well-formed record: string symbol ETH,
numeric score 4, boolean alert flag. -/
theorem C8_round_trip_amended_witness :
    (roundTrip (pyCleanRecord c8Good)).symbol = Cell.rawS "ETH"
    ∧ (roundTrip (pyCleanRecord c8Good)).alert_sent
        = pyEqTrue (pyCleanRecord c8Good).alert_sent
    ∧ (roundTrip (pyCleanRecord c8Good)).signal_score = 4
    ∧ (pyCleanRecord c8Good).signal_score
        = some ((roundTrip (pyCleanRecord c8Good)).signal_score) :=
  C8_round_trip_amended c8Good "ETH" 4 rfl (Or.inr ⟨true, rfl⟩) rfl

/-- C10: a genuine zero reading in `rsi_15m` or `heat_index` is mapped to
null by the dashboard conversion `parseFloat(x) || null`, and is therefore
excluded from the non-null value set of its column and from the count, mean,
min and max statistics computed over it. -/
theorem C10_zero_reading_becomes_null (pre post : List Row) (r : Row) :
    (jsParseFloat r.rsi_15m = some 0 →
      (normRow r).rsi_15m = none
      ∧ rsiVals (pre ++ r :: post) = rsiVals (pre ++ post)
      ∧ (rsiVals (pre ++ r :: post)).length = (rsiVals (pre ++ post)).length
      ∧ rsiAvg (pre ++ r :: post) = rsiAvg (pre ++ post)
      ∧ (rsiVals (pre ++ r :: post)).min? = (rsiVals (pre ++ post)).min?
      ∧ (rsiVals (pre ++ r :: post)).max? = (rsiVals (pre ++ post)).max?)
    ∧ (jsParseFloat r.heat_index = some 0 →
      (normRow r).heat_index = none
      ∧ heatVals (pre ++ r :: post) = heatVals (pre ++ post)
      ∧ (heatVals (pre ++ r :: post)).length = (heatVals (pre ++ post)).length
      ∧ heatAvg (pre ++ r :: post) = heatAvg (pre ++ post)
      ∧ (heatVals (pre ++ r :: post)).min? = (heatVals (pre ++ post)).min?
      ∧ (heatVals (pre ++ r :: post)).max? = (heatVals (pre ++ post)).max?) := by
  constructor
  · intro h
    have h1 : (normRow r).rsi_15m = none := by simp [normRow, jsOrNull, h]
    have h2 : rsiVals (pre ++ r :: post) = rsiVals (pre ++ post) := by
      simp only [rsiVals, alertsOf, List.map_append, List.map_cons,
        List.filter_append, List.filter_cons, List.filterMap_append]
      by_cases hb : (normRow r).alert_sent
      · simp [hb, h1]
      · simp [hb]
    exact ⟨h1, h2, by rw [h2], by simp [rsiAvg, h2], by rw [h2], by rw [h2]⟩
  · intro h
    have h1 : (normRow r).heat_index = none := by simp [normRow, jsOrNull, h]
    have h2 : heatVals (pre ++ r :: post) = heatVals (pre ++ post) := by
      simp only [heatVals, List.map_append, List.map_cons, List.filterMap_append,
        List.filterMap_cons]
      simp [h1]
    exact ⟨h1, h2, by rw [h2], by simp [heatAvg, h2], by rw [h2], by rw [h2]⟩

/-- Witness for C10 at a concrete row with zero RSI and heat readings. -/
theorem C10_zero_reading_becomes_null_witness :
    (normRow c10Row).rsi_15m = none ∧ (normRow c10Row).heat_index = none
      ∧ rsiVals [c10Row] = rsiVals [] ∧ heatVals [c10Row] = heatVals [] :=
  ⟨((C10_zero_reading_becomes_null [] [] c10Row).1 rfl).1,
    ((C10_zero_reading_becomes_null [] [] c10Row).2 rfl).1,
    ((C10_zero_reading_becomes_null [] [] c10Row).1 rfl).2.1,
    ((C10_zero_reading_becomes_null [] [] c10Row).2 rfl).2.1⟩

end Pingr
